import Mathlib

/-!
# Meet-Backend: the per-meeting session manager

A shallow embedding of `userManager.go` and of the session-related parts of
`main.go`.

Modelling conventions.

* A Go `map[string]*SocketWrapper` is an association list with pairwise
  distinct keys (`AList`).  Iteration over a map (`range`) visits the entries in
  list order, which is one of the orders Go may choose.
* A `*websocket.Conn` is a natural number, the identity of the connection.
* Every method returns the session state after the call together with the
  trace of what the call did: calls of `sendMessage` and `broadcast`
  (dispatches), writes to a connection (deliveries), closes.
* `go f(x)` is executed at the point where it is spawned.  Every goroutine
  the session spawns is spawned after the last map update of the spawning
  method, so this is the schedule in which a goroutine runs before the next
  inbound event is handled.
* `Data interface{}` is an optional opaque payload; `none` is Go `nil`.
-/

namespace MeetBackend

/-! ## Data model (`userManager.go`, lines 11-54) -/

abbrev WebRTCEvent := String

def OFFER : WebRTCEvent := "OFFER"
def ANSWER : WebRTCEvent := "ANSWER"
def ICE_CANDIDATE : WebRTCEvent := "ICE_CANDIDATE"
def USER_JOINED : WebRTCEvent := "USER_JOINED"
def USER_LEFT : WebRTCEvent := "USER_LEFT"
def USER_REQUEST : WebRTCEvent := "USER_REQUEST"
def USER_REQUEST_ACCEPTED : WebRTCEvent := "USER_REQUEST_ACCEPTED"
def USER_REQUEST_REJECTED : WebRTCEvent := "USER_REQUEST_REJECTED"

/-- The wire message.  `Typ` is the Go field `Type`. -/
structure Message where
  Typ : WebRTCEvent
  Sender : String
  Name : String
  Receiver : String
  Data : Option String
deriving DecidableEq, Repr

structure SocketWrapper where
  ID : String
  Name : String
  Conn : Nat
deriving DecidableEq, Repr

/-- A Go `map[string]*SocketWrapper`. -/
abbrev ConnMap := AList (fun _ : String => SocketWrapper)

/-- The session.  The mutex `mu` has no counterpart: calls are atomic here. -/
structure UserManager where
  HostID : String
  Users : ConnMap
  WaitingUsers : ConnMap
  GlobalID : Int
deriving DecidableEq

/-- What a call does besides updating the maps. -/
inductive Event where
  /-- a call `sendMessage(msg)` -/
  | unicast (msg : Message)
  /-- a call `broadcast(msg)` -/
  | broadcast (msg : Message)
  /-- the text frame written to `conn` by `sendTo(conn, msg)` -/
  | sent (conn : Nat) (msg : Message)
  /-- the close frame of `conn.WriteMessage(websocket.CloseMessage, ...)` -/
  | closeFrame (conn : Nat) (code : Nat) (text : String)
  /-- a call `conn.Close()` -/
  | closed (conn : Nat)
  /-- a call `delete(managers, key)` -/
  | unregistered (key : String)
deriving DecidableEq, Repr

def NewUserManager (hostID : String) : UserManager :=
  { HostID := hostID, Users := ∅, WaitingUsers := ∅, GlobalID := 1 }

/-- Go `int` increment on a 64-bit platform (two's complement wrap-around). -/
def incInt (n : Int) : Int := (n + 1 + 2 ^ 63) % 2 ^ 64 - 2 ^ 63

/-- The function `strconv.Itoa`. -/
def Itoa (n : Int) : String := toString n

/-! ## Sending (`userManager.go`, lines 187-206) -/

def sendTo (conn : Nat) (msg : Message) : Event := Event.sent conn msg

def sendMessage (um : UserManager) (msg : Message) : List Event :=
  Event.unicast msg ::
    match um.Users.lookup msg.Receiver with
    | some user => [sendTo user.Conn msg]
    | none => []

def broadcast (um : UserManager) (msg : Message) : List Event :=
  Event.broadcast msg ::
    (um.Users.entries.filter (fun e => decide (e.1 ≠ msg.Sender))).map
      (fun e => sendTo e.2.Conn msg)

/-! ## Admission (`userManager.go`, lines 123-156) -/

def requestToJoin (um : UserManager) (sw : SocketWrapper) : UserManager × List Event :=
  let um1 := { um with WaitingUsers := um.WaitingUsers.insert sw.ID sw }
  let msg : Message :=
    { Typ := USER_REQUEST, Sender := sw.ID, Name := sw.Name, Receiver := um1.HostID,
      Data := none }
  (um1, sendMessage um1 msg)

def joinMeeting (um : UserManager) (sw : SocketWrapper) : UserManager × List Event :=
  let um1 := { um with Users := um.Users.insert sw.ID sw }
  if sw.ID ≠ um1.HostID then
    (um1,
      sendMessage um1
          { Typ := USER_REQUEST_ACCEPTED, Sender := sw.ID, Receiver := sw.ID,
            Name := sw.Name, Data := none } ++
        broadcast um1
          { Typ := USER_JOINED, Sender := sw.ID, Name := sw.Name, Receiver := "",
            Data := none })
  else
    (um1,
      sendMessage um1
        { Typ := USER_REQUEST_ACCEPTED, Sender := sw.ID, Receiver := sw.ID,
          Name := sw.Name, Data := none })

/-! ## Removal (`userManager.go`, lines 158-185) -/

def removeUser (um : UserManager) (id : String) : UserManager × List Event :=
  -- lines 162-166
  let r1 : UserManager × List Event :=
    match um.Users.lookup id with
    | some user =>
      ({ um with WaitingUsers := um.WaitingUsers.erase id }, [Event.closed user.Conn])
    | none => (um, [])
  -- lines 168-172
  let r2 : UserManager × List Event :=
    match r1.1.WaitingUsers.lookup id with
    | some user =>
      ({ r1.1 with WaitingUsers := r1.1.WaitingUsers.erase id }, [Event.closed user.Conn])
    | none => (r1.1, [])
  -- lines 174-184
  let t3 : List Event :=
    match r2.1.Users.lookup id with
    | some _ =>
      broadcast r2.1
          { Typ := USER_LEFT, Sender := id, Name := "", Receiver := "", Data := none } ++
        (if r2.1.Users.entries.length = 0 then [Event.unregistered r2.1.HostID] else [])
    | none => []
  (r2.1, r1.2 ++ r2.2 ++ t3)

/-! ## Joining and the inbound loop (`userManager.go`, lines 56-121) -/

/-- Lines 59-62 of `AddUser`: an empty ID is replaced by the next generated one. -/
def assignID (um : UserManager) (sw : SocketWrapper) : UserManager × SocketWrapper :=
  if sw.ID = "" then
    ({ um with GlobalID := incInt um.GlobalID }, { sw with ID := Itoa um.GlobalID })
  else (um, sw)

/-- The method `AddUser`.  The read loop it spawns is `handleMessage`, one call per
message read; the close handler it installs is `removeUser`. -/
def AddUser (um : UserManager) (sw : SocketWrapper) : UserManager × List Event :=
  let a := assignID um sw
  if a.2.ID = a.1.HostID then joinMeeting a.1 a.2 else requestToJoin a.1 a.2

/-- One round of the loop of `handleMessages` for a frame that was read and
decoded into `msg0` (lines 86-119).  A read error is `removeUser um sw.ID`; a
frame that is not JSON leaves everything as it is. -/
def handleMessage (um : UserManager) (sw : SocketWrapper) (msg0 : Message) :
    UserManager × List Event :=
  let msg : Message := { msg0 with Sender := sw.ID, Name := sw.Name }
  if msg.Typ = OFFER ∨ msg.Typ = ANSWER ∨ msg.Typ = ICE_CANDIDATE then
    (um, sendMessage um msg)
  else if msg.Typ = USER_REQUEST then
    requestToJoin um sw
  else if msg.Typ = USER_REQUEST_ACCEPTED then
    match um.WaitingUsers.lookup msg.Receiver with
    | some user =>
      joinMeeting { um with WaitingUsers := um.WaitingUsers.erase user.ID } user
    | none => (um, [])
  else if msg.Typ = USER_REQUEST_REJECTED then
    ({ um with WaitingUsers := um.WaitingUsers.erase sw.ID },
      [Event.closeFrame sw.Conn 4000 "User request rejected", Event.closed sw.Conn])
  else if msg.Typ = USER_LEFT then
    removeUser um sw.ID
  else
    (um, [])

/-! ## The registry (`main.go`, lines 25-26 and 78-86) -/

/-- The global `managers`: meeting ID to session. -/
abbrev Registry := AList (fun _ : String => UserManager)

/-- The calls `delete(managers, key)` recorded in a trace, applied in order. -/
def applyUnregister (managers : Registry) : List Event → Registry
  | [] => managers
  | Event.unregistered key :: rest => applyUnregister (managers.erase key) rest
  | _ :: rest => applyUnregister managers rest

/-- The call `removeUser(id)` on the session registered under `meetingID`: the
session is updated in place and the registry loses what the call deletes. -/
def removeUserAt (managers : Registry) (meetingID id : String) : Registry × List Event :=
  match managers.lookup meetingID with
  | none => (managers, [])
  | some um =>
    let r := removeUser um id
    (applyUnregister (managers.replace meetingID r.1) r.2, r.2)

/-- Lines 78-86 of `handleWebSocket`: look the session up, create and register
it when there is none, and add the socket to it. -/
def connect (managers : Registry) (meetingID hostID : String) (socket : SocketWrapper) :
    Registry × List Event :=
  let r : Registry × UserManager :=
    match managers.lookup meetingID with
    | some manager => (managers, manager)
    | none => (managers.insert meetingID (NewUserManager hostID), NewUserManager hostID)
  let a := AddUser r.2 socket
  (r.1.replace meetingID a.1, a.2)

/-! ## Authentication (`main.go`, lines 41-76 and 89-135) -/

/-- How a Go call that returns `(value, error)` can end. -/
inductive Outcome (α : Type) where
  /-- returned `(a, nil)` -/
  | ok (a : α)
  /-- returned a non-nil error -/
  | error
  /-- ended in `log.Fatal` or `log.Fatalf`: the process exits -/
  | fatal
  /-- a run-time panic -/
  | panicked
deriving DecidableEq, Repr

/-- The libraries `decryptJWE` calls: `hkdf`, `go-jose` and `encoding/json`.
`none` is a non-nil error, for `sub` a `payload["sub"]` that is not a string. -/
structure Jose where
  Object : Type
  Payload : Type
  hkdfRead : String → String → String → Nat → Option (List Nat)
  parseEncrypted : String → Option Object
  decrypt : Object → List Nat → Option String
  unmarshal : String → Option Payload
  sub : Payload → Option String

def deriveEncryptionKey (lib : Jose) (secret salt : String) : Option (List Nat) :=
  let info := "NextAuth.js Generated Encryption Key"
  let info := if salt ≠ "" then info ++ (" (" ++ salt ++ ")") else info
  lib.hkdfRead secret salt info 32

/-- The function `decryptJWE`; `secret` is `os.Getenv("NEXTAUTH_SECRET")`. -/
def decryptJWE (lib : Jose) (secret token : String) : Outcome String :=
  if secret = "" then Outcome.fatal
  else
    match deriveEncryptionKey lib secret "" with
    | none => Outcome.fatal
    | some derivedKey =>
      match lib.parseEncrypted token with
      | none => Outcome.fatal
      | some object =>
        match lib.decrypt object derivedKey with
        | none => Outcome.fatal
        | some plaintext =>
          match lib.unmarshal plaintext with
          | none => Outcome.fatal
          | some payload =>
            match lib.sub payload with
            | none => Outcome.panicked
            | some ID => Outcome.ok ID

/-- What the handler needs from outside the session manager. -/
structure Env where
  lib : Jose
  secret : String
  FindMeetingByID : String → Option String
  upgrade : Option Nat

/-- The request: the two query parameters and the value of the cookie
`next-auth.session-token`, when the request carries one. -/
structure Request where
  meetingId : String
  name : String
  cookie : Option String

/-- How `handleWebSocket` can end. -/
inductive Handled where
  | httpError (status : Nat) (body : String)
  | upgradeFailed
  | exited
  | panicked
  /-- the socket as created on lines 72-76, and the registry after `AddUser` -/
  | added (socket : SocketWrapper) (managers : Registry) (trace : List Event)

/-- Lines 66-86 of `handleWebSocket`, with the user ID settled. -/
def upgradeAndJoin (env : Env) (managers : Registry) (req : Request) (hostID userID : String) :
    Handled :=
  match env.upgrade with
  | none => Handled.upgradeFailed
  | some conn =>
    let socket : SocketWrapper := { Conn := conn, ID := userID, Name := req.name }
    let r := connect managers req.meetingId hostID socket
    Handled.added socket r.1 r.2

def handleWebSocket (env : Env) (managers : Registry) (req : Request) : Handled :=
  if req.meetingId = "" then Handled.httpError 400 "Invalid Request"
  else
    match env.FindMeetingByID req.meetingId with
    | none => Handled.httpError 404 "Invalid Room ID"
    | some hostID =>
      -- lines 57-64
      match req.cookie with
      | none => upgradeAndJoin env managers req hostID ""
      | some token =>
        if token ≠ "" then
          match decryptJWE env.lib env.secret token with
          | Outcome.ok decryptedID => upgradeAndJoin env managers req hostID decryptedID
          | Outcome.error => upgradeAndJoin env managers req hostID ""
          | Outcome.fatal => Handled.exited
          | Outcome.panicked => Handled.panicked
        else upgradeAndJoin env managers req hostID ""

/-! ## Observations on traces -/

/-- The frames written, in order: connection and message. -/
def deliveries : List Event → List (Nat × Message)
  | [] => []
  | Event.sent conn msg :: rest => (conn, msg) :: deliveries rest
  | _ :: rest => deliveries rest

/-- The messages handed to `sendMessage` or `broadcast`, in order. -/
def dispatches : List Event → List Message
  | [] => []
  | Event.unicast msg :: rest => msg :: dispatches rest
  | Event.broadcast msg :: rest => msg :: dispatches rest
  | _ :: rest => dispatches rest

/-! ## Reachable session states -/

/-- The states a session created for `hostID` can be in, with the sockets that
were added to it: the senders of the messages it handles. -/
inductive Reachable (hostID : String) : UserManager → List SocketWrapper → Prop where
  | init : Reachable hostID (NewUserManager hostID) []
  | addUser {um : UserManager} {live : List SocketWrapper} (sw : SocketWrapper) :
      Reachable hostID um live →
      Reachable hostID (AddUser um sw).1 ((assignID um sw).2 :: live)
  | handle {um : UserManager} {live : List SocketWrapper} (sw : SocketWrapper)
      (msg : Message) :
      Reachable hostID um live → sw ∈ live →
      Reachable hostID (handleMessage um sw msg).1 live
  | remove {um : UserManager} {live : List SocketWrapper} (id : String) :
      Reachable hostID um live →
      Reachable hostID (removeUser um id).1 live

/-- The states reached when a socket that is not the host is added only while
its ID is not active, and a USER_REQUEST is handled only from a sender whose ID is
not active. -/
inductive GuardedReachable (hostID : String) : UserManager → List SocketWrapper → Prop where
  | init : GuardedReachable hostID (NewUserManager hostID) []
  | addUser {um : UserManager} {live : List SocketWrapper} (sw : SocketWrapper) :
      GuardedReachable hostID um live →
      ((assignID um sw).2.ID ≠ um.HostID → (assignID um sw).2.ID ∉ um.Users) →
      GuardedReachable hostID (AddUser um sw).1 ((assignID um sw).2 :: live)
  | handle {um : UserManager} {live : List SocketWrapper} (sw : SocketWrapper)
      (msg : Message) :
      GuardedReachable hostID um live → sw ∈ live →
      (msg.Typ = USER_REQUEST → sw.ID ∉ um.Users) →
      GuardedReachable hostID (handleMessage um sw msg).1 live
  | remove {um : UserManager} {live : List SocketWrapper} (id : String) :
      GuardedReachable hostID um live →
      GuardedReachable hostID (removeUser um id).1 live

/-- Every key of the waiting map is the ID of the socket stored under it. -/
def KeysAgree (um : UserManager) : Prop :=
  ∀ k v, um.WaitingUsers.lookup k = some v → v.ID = k

/-- No ID is a key of both maps. -/
def Exclusive (um : UserManager) : Prop :=
  ∀ id, ¬ (id ∈ um.Users ∧ id ∈ um.WaitingUsers)

/-! ## Example sessions -/

def hostSocket : SocketWrapper := { ID := "h1", Name := "Hana", Conn := 1 }
def guestSocket : SocketWrapper := { ID := "u1", Name := "Ugo", Conn := 2 }
def otherSocket : SocketWrapper := { ID := "u2", Name := "Vera", Conn := 3 }

/-- The host has joined meeting `m1`. -/
def hostOnly : UserManager := (AddUser (NewUserManager "h1") hostSocket).1

/-- The host is active and `u1` waits. -/
def guestWaiting : UserManager := (AddUser hostOnly guestSocket).1

/-- The host and `u2` are active and `u1` waits. -/
def twoActive : UserManager :=
  (AddUser (handleMessage (AddUser hostOnly otherSocket).1 hostSocket
    { Typ := USER_REQUEST_ACCEPTED, Sender := "", Name := "", Receiver := "u2",
      Data := none }).1 guestSocket).1

/-- The host is active and sends USER_REQUEST. -/
def hostRequested : UserManager :=
  (handleMessage hostOnly hostSocket
    { Typ := USER_REQUEST, Sender := "", Name := "", Receiver := "", Data := none }).1

/-- The host has accepted `u1`. -/
def guestAdmitted : UserManager :=
  (handleMessage guestWaiting hostSocket
    { Typ := USER_REQUEST_ACCEPTED, Sender := "", Name := "", Receiver := "u1",
      Data := none }).1

/-- A second connection of the admitted `u1`. -/
def guestSecondSocket : SocketWrapper := { ID := "u1", Name := "Ugo", Conn := 4 }

/-- The registry after the host has connected to meeting `m1`. -/
def hostRegistry : Registry := (connect ∅ "m1" "h1" hostSocket).1

/-- A library that accepts a token of five parts separated by dots and fails to
decrypt it. -/
def strictJose : Jose :=
  { Object := String
    Payload := String
    hkdfRead := fun _ _ _ n => some (List.replicate n 0)
    parseEncrypted := fun t =>
      if (t.toList.filter (fun c => c == '.')).length = 4 then some t else none
    decrypt := fun _ _ => none
    unmarshal := fun _ => none
    sub := fun _ => none }

def strictEnv : Env :=
  { lib := strictJose
    secret := "secret"
    FindMeetingByID := fun id => if id = "m1" then some "h1" else none
    upgrade := some 9 }

/-! ## Basic facts -/

theorem accepted_ne_relay :
    USER_REQUEST_ACCEPTED ≠ OFFER ∧ USER_REQUEST_ACCEPTED ≠ ANSWER ∧
      USER_REQUEST_ACCEPTED ≠ ICE_CANDIDATE ∧ USER_REQUEST_ACCEPTED ≠ USER_REQUEST := by
  decide

theorem handleMessage_relay (um : UserManager) (sw : SocketWrapper) (msg : Message)
    (hT : msg.Typ = OFFER ∨ msg.Typ = ANSWER ∨ msg.Typ = ICE_CANDIDATE) :
    handleMessage um sw msg =
      (um, sendMessage um { msg with Sender := sw.ID, Name := sw.Name }) := by
  unfold handleMessage
  simp only [hT, if_true]

theorem handleMessage_accepted (um : UserManager) (sw : SocketWrapper) (msg : Message)
    (hT : msg.Typ = USER_REQUEST_ACCEPTED) :
    handleMessage um sw msg =
      match um.WaitingUsers.lookup msg.Receiver with
      | some user =>
        joinMeeting { um with WaitingUsers := um.WaitingUsers.erase user.ID } user
      | none => (um, []) := by
  obtain ⟨h1, h2, h3, h4⟩ := accepted_ne_relay
  unfold handleMessage
  simp [hT, h1, h2, h3, h4]

theorem joinMeeting_state (um : UserManager) (sw : SocketWrapper) :
    (joinMeeting um sw).1 = { um with Users := um.Users.insert sw.ID sw } := by
  unfold joinMeeting
  by_cases h : sw.ID = um.HostID <;> simp [h]

theorem filter_kerase (a : String) (l : List (Sigma fun _ : String => SocketWrapper)) :
    (List.kerase a l).filter (fun e => decide (e.1 ≠ a)) =
      l.filter (fun e => decide (e.1 ≠ a)) := by
  induction l with
  | nil => rfl
  | cons hd tl ih =>
    by_cases h : a = hd.1
    · rw [List.kerase_cons_eq h]
      simp [h]
    · rw [List.kerase_cons_ne h]
      simp only [List.filter_cons, ih]

/-- The call `joinMeeting` for a socket that is not the host. -/
theorem joinMeeting_guest (um : UserManager) (sw : SocketWrapper) (h : sw.ID ≠ um.HostID) :
    joinMeeting um sw =
      ({ um with Users := um.Users.insert sw.ID sw },
        Event.unicast
            { Typ := USER_REQUEST_ACCEPTED, Sender := sw.ID, Name := sw.Name,
              Receiver := sw.ID, Data := none } ::
          Event.sent sw.Conn
            { Typ := USER_REQUEST_ACCEPTED, Sender := sw.ID, Name := sw.Name,
              Receiver := sw.ID, Data := none } ::
          Event.broadcast
            { Typ := USER_JOINED, Sender := sw.ID, Name := sw.Name, Receiver := "",
              Data := none } ::
          (um.Users.entries.filter (fun e => decide (e.1 ≠ sw.ID))).map
            (fun e => Event.sent e.2.Conn
              { Typ := USER_JOINED, Sender := sw.ID, Name := sw.Name, Receiver := "",
                Data := none })) := by
  have hf : ((um.Users.insert sw.ID sw).entries.filter (fun e => decide (e.1 ≠ sw.ID))) =
      um.Users.entries.filter (fun e => decide (e.1 ≠ sw.ID)) := by
    rw [AList.insert_entries, List.filter_cons]
    simp only [ne_eq, not_true_eq_false, decide_False, Bool.false_eq_true, if_false]
    exact filter_kerase sw.ID um.Users.entries
  unfold joinMeeting
  simp only [ne_eq, h, not_false_eq_true, if_true, sendMessage, AList.lookup_insert,
    broadcast, sendTo, List.singleton_append, List.cons_append, List.nil_append]
  rw [← hf]

theorem removeUser_state (um : UserManager) (id : String) :
    (removeUser um id).1 = { um with WaitingUsers := um.WaitingUsers.erase id } := by
  unfold removeUser
  cases h1 : um.Users.lookup id <;> simp only []
  · cases h2 : um.WaitingUsers.lookup id <;> simp only []
    have h3 : id ∉ um.WaitingUsers := AList.lookup_eq_none.mp h2
    have h4 : um.WaitingUsers.erase id = um.WaitingUsers := by
      apply AList.ext
      simp only [AList.erase]
      exact List.kerase_of_not_mem_keys h3
    rw [h4]
  · simp only [AList.lookup_erase]

/-- The call `delete(managers, um.HostID)` of `removeUser` is never reached: it
sits under a test that `id` is a key of the active map and asks that map to be
empty. -/
theorem removeUser_never_unregisters (um : UserManager) (id key : String) :
    Event.unregistered key ∉ (removeUser um id).2 := by
  have hb : ∀ (u : UserManager) (m : Message), Event.unregistered key ∉ broadcast u m := by
    intro u m h
    simp [broadcast, sendTo] at h
  have hlen : ∀ (u : UserManager), (u.Users.lookup id).isSome → u.Users.entries.length ≠ 0 := by
    intro u h h0
    have hmem : id ∈ u.Users.keys := AList.mem_keys.mp (AList.lookup_isSome.mp h)
    have hnil : u.Users.entries = [] := List.length_eq_zero.mp h0
    simp [AList.keys, hnil] at hmem
  unfold removeUser
  cases h1 : um.Users.lookup id with
  | none =>
    simp only []
    cases h2 : um.WaitingUsers.lookup id <;> simp [h1]
  | some u =>
    simp only [AList.lookup_erase, h1, List.append_nil]
    intro h
    rcases List.mem_append.mp h with h | h
    · simp at h
    · rcases List.mem_append.mp h with h | h
      · exact hb _ _ h
      · rw [if_neg (hlen _ (by simp [h1]))] at h
        cases h

theorem assignID_state (um : UserManager) (sw : SocketWrapper) :
    (assignID um sw).1.HostID = um.HostID ∧ (assignID um sw).1.Users = um.Users ∧
      (assignID um sw).1.WaitingUsers = um.WaitingUsers := by
  unfold assignID
  split <;> exact ⟨rfl, rfl, rfl⟩

/-- The maps after `AddUser`: the socket, with its ID assigned, is entered into
the active map if it is the host and into the waiting map if not. -/
theorem addUser_state (um : UserManager) (sw : SocketWrapper) :
    (AddUser um sw).1.HostID = um.HostID ∧
      (((assignID um sw).2.ID = um.HostID ∧
          (AddUser um sw).1.Users = um.Users.insert (assignID um sw).2.ID (assignID um sw).2 ∧
          (AddUser um sw).1.WaitingUsers = um.WaitingUsers) ∨
        ((assignID um sw).2.ID ≠ um.HostID ∧ (AddUser um sw).1.Users = um.Users ∧
          (AddUser um sw).1.WaitingUsers =
            um.WaitingUsers.insert (assignID um sw).2.ID (assignID um sw).2)) := by
  obtain ⟨hH, hU, hW⟩ := assignID_state um sw
  unfold AddUser
  simp only []
  by_cases h : (assignID um sw).2.ID = (assignID um sw).1.HostID
  · simp only [h, if_true, joinMeeting_state]
    exact ⟨hH, Or.inl ⟨hH, by rw [hU], hW⟩⟩
  · simp only [h, if_false, requestToJoin]
    exact ⟨hH, Or.inr ⟨by rw [← hH]; exact h, hU, by rw [hW]⟩⟩

/-- The maps after one handled message: nothing changed, or the sender was
entered into the waiting map by a USER_REQUEST, or a waiting socket was moved
to the active map, or one key was deleted from the waiting map. -/
theorem handleMessage_state (um : UserManager) (sw : SocketWrapper) (msg : Message) :
    (handleMessage um sw msg).1 = um ∨
      (msg.Typ = USER_REQUEST ∧
        (handleMessage um sw msg).1 =
          { um with WaitingUsers := um.WaitingUsers.insert sw.ID sw }) ∨
      (∃ user,
        (handleMessage um sw msg).1 =
          { um with
            WaitingUsers := um.WaitingUsers.erase user.ID
            Users := um.Users.insert user.ID user }) ∨
      ∃ x, (handleMessage um sw msg).1 = { um with WaitingUsers := um.WaitingUsers.erase x } := by
  unfold handleMessage
  simp only []
  split_ifs with h1 h2 h3 h4 h5
  · exact Or.inl rfl
  · exact Or.inr (Or.inl ⟨h2, rfl⟩)
  · cases um.WaitingUsers.lookup msg.Receiver with
    | none => exact Or.inl rfl
    | some user =>
      refine Or.inr (Or.inr (Or.inl ⟨user, ?_⟩))
      simp only [joinMeeting_state]
  · exact Or.inr (Or.inr (Or.inr ⟨sw.ID, rfl⟩))
  · exact Or.inr (Or.inr (Or.inr ⟨sw.ID, removeUser_state um sw.ID⟩))
  · exact Or.inl rfl

/-! ## Invariants of the reachable states -/

theorem lookup_erase_some {W : ConnMap} {a k : String} {v : SocketWrapper}
    (h : (W.erase a).lookup k = some v) : k ≠ a ∧ W.lookup k = some v := by
  by_cases hk : k = a
  · subst hk
    rw [AList.lookup_erase] at h
    cases h
  · rw [AList.lookup_erase_ne hk] at h
    exact ⟨hk, h⟩

theorem keysAgree_insert {W : ConnMap} (h : ∀ k v, W.lookup k = some v → v.ID = k)
    (sw : SocketWrapper) : ∀ k v, (W.insert sw.ID sw).lookup k = some v → v.ID = k := by
  intro k v hl
  by_cases hk : k = sw.ID
  · subst hk
    rw [AList.lookup_insert] at hl
    cases hl
    rfl
  · rw [AList.lookup_insert_ne hk] at hl
    exact h k v hl

theorem keysAgree_erase {W : ConnMap} (h : ∀ k v, W.lookup k = some v → v.ID = k)
    (a : String) : ∀ k v, (W.erase a).lookup k = some v → v.ID = k :=
  fun k v hl => h k v (lookup_erase_some hl).2

theorem reachable_keysAgree {hostID : String} {um : UserManager} {live : List SocketWrapper}
    (hr : Reachable hostID um live) : KeysAgree um := by
  induction hr with
  | init =>
    intro k v h
    simp [NewUserManager] at h
  | @addUser um live sw _ ih =>
    unfold KeysAgree
    rcases (addUser_state um sw).2 with ⟨_, _, hW⟩ | ⟨_, _, hW⟩
    · rw [hW]; exact ih
    · rw [hW]; exact keysAgree_insert ih _
  | @handle um live sw msg _ _ ih =>
    unfold KeysAgree
    rcases handleMessage_state um sw msg with h | ⟨_, h⟩ | ⟨user, h⟩ | ⟨x, h⟩
    · rw [h]; exact ih
    · rw [h]; exact keysAgree_insert ih _
    · rw [h]; exact keysAgree_erase ih _
    · rw [h]; exact keysAgree_erase ih _
  | @remove um live id _ ih =>
    unfold KeysAgree
    rw [removeUser_state]
    exact keysAgree_erase ih _

/-- What the guarded steps keep: no ID is in both maps, the host ID does not
wait, and every socket that was added with the host ID is active. -/
theorem guarded_invariant {hostID : String} {um : UserManager} {live : List SocketWrapper}
    (hr : GuardedReachable hostID um live) :
    Exclusive um ∧ um.HostID ∉ um.WaitingUsers ∧
      ∀ sw ∈ live, sw.ID = um.HostID → sw.ID ∈ um.Users := by
  induction hr with
  | init =>
    refine ⟨fun id h => ?_, ?_, fun sw h => ?_⟩
    · exact AList.not_mem_empty id h.1
    · exact AList.not_mem_empty _
    · cases h
  | @addUser um live sw _ hg ih =>
    obtain ⟨hE, hK, hJ⟩ := ih
    obtain ⟨hH, hc⟩ := addUser_state um sw
    unfold Exclusive
    rw [hH]
    rcases hc with ⟨hid, hU, hW⟩ | ⟨hid, hU, hW⟩
    · rw [hU, hW]
      refine ⟨fun x hx => ?_, hK, fun s hs hsid => ?_⟩
      · rcases (AList.mem_insert um.Users).mp hx.1 with h1 | h1
        · exact hK (hid ▸ h1 ▸ hx.2)
        · exact hE x ⟨h1, hx.2⟩
      · rcases List.mem_cons.mp hs with h1 | h1
        · exact (AList.mem_insert um.Users).mpr (Or.inl (by rw [h1]))
        · exact (AList.mem_insert um.Users).mpr (Or.inr (hJ s h1 hsid))
    · rw [hU, hW]
      refine ⟨fun x hx => ?_, fun hx => ?_, fun s hs hsid => ?_⟩
      · rcases (AList.mem_insert um.WaitingUsers).mp hx.2 with h1 | h1
        · exact hg hid (h1 ▸ hx.1)
        · exact hE x ⟨hx.1, h1⟩
      · rcases (AList.mem_insert um.WaitingUsers).mp hx with h1 | h1
        · exact hid h1.symm
        · exact hK h1
      · rcases List.mem_cons.mp hs with h1 | h1
        · exact absurd (h1 ▸ hsid) hid
        · exact hJ s h1 hsid
  | @handle um live sw msg _ hm hg ih =>
    obtain ⟨hE, hK, hJ⟩ := ih
    unfold Exclusive
    rcases handleMessage_state um sw msg with h | ⟨hT, h⟩ | ⟨user, h⟩ | ⟨x, h⟩
    · rw [h]
      exact ⟨hE, hK, hJ⟩
    · rw [h]
      have hn : sw.ID ∉ um.Users := hg hT
      have hne : sw.ID ≠ um.HostID := fun e => hn (hJ sw hm e)
      refine ⟨fun x hx => ?_, fun hx => ?_, hJ⟩
      · rcases (AList.mem_insert um.WaitingUsers).mp hx.2 with h1 | h1
        · exact hn (h1 ▸ hx.1)
        · exact hE x ⟨hx.1, h1⟩
      · rcases (AList.mem_insert um.WaitingUsers).mp hx with h1 | h1
        · exact hne h1.symm
        · exact hK h1
    · rw [h]
      refine ⟨fun x hx => ?_, fun hx => hK (AList.mem_erase.mp hx).2, fun s hs hsid => ?_⟩
      · obtain ⟨h1, h2⟩ := AList.mem_erase.mp hx.2
        rcases (AList.mem_insert um.Users).mp hx.1 with h3 | h3
        · exact h1 h3
        · exact hE x ⟨h3, h2⟩
      · exact (AList.mem_insert um.Users).mpr (Or.inr (hJ s hs hsid))
    · rw [h]
      exact ⟨fun y hy => hE y ⟨hy.1, (AList.mem_erase.mp hy.2).2⟩,
        fun hx => hK (AList.mem_erase.mp hx).2, hJ⟩
  | @remove um live id _ ih =>
    obtain ⟨hE, hK, hJ⟩ := ih
    unfold Exclusive
    rw [removeUser_state]
    exact ⟨fun y hy => hE y ⟨hy.1, (AList.mem_erase.mp hy.2).2⟩,
      fun hx => hK (AList.mem_erase.mp hx).2, hJ⟩

/-! ## Routing -/

/-- C8: a message of type OFFER, ANSWER or ICE_CANDIDATE leaves the session as it
is; when its receiver is active, exactly one frame is written, to the receiver's
connection, carrying the sender's own ID and name and the type, receiver and data
received; when the receiver is not active, no frame is written. -/
theorem relay_overwrites_sender (um : UserManager) (sw : SocketWrapper) (msg : Message)
    (hT : msg.Typ = OFFER ∨ msg.Typ = ANSWER ∨ msg.Typ = ICE_CANDIDATE) :
    (handleMessage um sw msg).1 = um ∧
      deliveries (handleMessage um sw msg).2 =
        match um.Users.lookup msg.Receiver with
        | some user =>
          [(user.Conn,
            { Typ := msg.Typ, Sender := sw.ID, Name := sw.Name, Receiver := msg.Receiver,
              Data := msg.Data })]
        | none => [] := by
  rw [handleMessage_relay um sw msg hT]
  refine ⟨rfl, ?_⟩
  simp only [sendMessage]
  cases um.Users.lookup msg.Receiver <;> rfl

theorem relay_overwrites_sender_witness :
    (("ICE_CANDIDATE" : WebRTCEvent) = OFFER ∨ ("ICE_CANDIDATE" : WebRTCEvent) = ANSWER ∨
        ("ICE_CANDIDATE" : WebRTCEvent) = ICE_CANDIDATE) ∧
      (handleMessage twoActive otherSocket
          { Typ := "ICE_CANDIDATE", Sender := "h1", Name := "Hana", Receiver := "h1",
            Data := some "candidate" }).1 = twoActive ∧
      deliveries (handleMessage twoActive otherSocket
          { Typ := "ICE_CANDIDATE", Sender := "h1", Name := "Hana", Receiver := "h1",
            Data := some "candidate" }).2 =
        match twoActive.Users.lookup "h1" with
        | some user =>
          [(user.Conn,
            { Typ := "ICE_CANDIDATE", Sender := "u2", Name := "Vera", Receiver := "h1",
              Data := some "candidate" })]
        | none => [] :=
  ⟨by decide,
    relay_overwrites_sender twoActive otherSocket
      { Typ := "ICE_CANDIDATE", Sender := "h1", Name := "Hana", Receiver := "h1",
        Data := some "candidate" } (by decide)⟩

/-- C10: a USER_REQUEST_ACCEPTED whose receiver is not waiting changes nothing in
the session (active map, waiting map, counter) and its trace is empty: nothing is
dispatched, nothing is written. -/
theorem stale_accept_is_noop (um : UserManager) (sw : SocketWrapper) (msg : Message)
    (hT : msg.Typ = USER_REQUEST_ACCEPTED) (hR : msg.Receiver ∉ um.WaitingUsers) :
    (handleMessage um sw msg).1 = um ∧ (handleMessage um sw msg).2 = [] := by
  rw [handleMessage_accepted um sw msg hT, AList.lookup_eq_none.mpr hR]
  exact ⟨rfl, rfl⟩

theorem stale_accept_is_noop_witness :
    ("u1" ∉ hostOnly.WaitingUsers) ∧
      (handleMessage hostOnly hostSocket
          { Typ := USER_REQUEST_ACCEPTED, Sender := "", Name := "", Receiver := "u1",
            Data := none }).1 = hostOnly ∧
      (handleMessage hostOnly hostSocket
          { Typ := USER_REQUEST_ACCEPTED, Sender := "", Name := "", Receiver := "u1",
            Data := none }).2 = [] :=
  ⟨by decide,
    stale_accept_is_noop hostOnly hostSocket
      { Typ := USER_REQUEST_ACCEPTED, Sender := "", Name := "", Receiver := "u1",
        Data := none } rfl (by decide)⟩

/-! ## Admission -/

/-- C2 as stated fails: `u1` waits, is not the host, and sends
USER_REQUEST_ACCEPTED with its own ID as receiver; afterwards `u1` is active. -/
theorem guest_admits_itself :
    guestSocket.ID ≠ guestWaiting.HostID ∧ "u1" ∉ guestWaiting.Users ∧
      "u1" ∈ (handleMessage guestWaiting guestSocket
          { Typ := USER_REQUEST_ACCEPTED, Sender := "", Name := "", Receiver := "u1",
            Data := none }).1.Users ∧
      (handleMessage guestWaiting guestSocket
          { Typ := USER_REQUEST_ACCEPTED, Sender := "", Name := "", Receiver := "u1",
            Data := none }).1.Users ≠ guestWaiting.Users := by
  have h1 : "u1" ∉ guestWaiting.Users := by decide
  have h2 : "u1" ∈ (handleMessage guestWaiting guestSocket
      { Typ := USER_REQUEST_ACCEPTED, Sender := "", Name := "", Receiver := "u1",
        Data := none }).1.Users := by decide
  exact ⟨by decide, h1, h2, fun h => h1 (h ▸ h2)⟩

/-- C2, amended: whoever sends it, host or not, a USER_REQUEST_ACCEPTED makes the
socket waiting under the message's receiver active, and leaves the active map as
it is when nobody waits under that receiver. -/
theorem accept_ignores_sender (um : UserManager) (sw : SocketWrapper) (msg : Message)
    (hT : msg.Typ = USER_REQUEST_ACCEPTED) :
    (handleMessage um sw msg).1.Users =
      match um.WaitingUsers.lookup msg.Receiver with
      | some user => um.Users.insert user.ID user
      | none => um.Users := by
  rw [handleMessage_accepted um sw msg hT]
  cases um.WaitingUsers.lookup msg.Receiver with
  | none => rfl
  | some user => simp only [joinMeeting_state]

theorem accept_ignores_sender_witness :
    (handleMessage guestWaiting guestSocket
        { Typ := USER_REQUEST_ACCEPTED, Sender := "", Name := "", Receiver := "u1",
          Data := none }).1.Users =
      match guestWaiting.WaitingUsers.lookup "u1" with
      | some user => guestWaiting.Users.insert user.ID user
      | none => guestWaiting.Users :=
  accept_ignores_sender guestWaiting guestSocket
    { Typ := USER_REQUEST_ACCEPTED, Sender := "", Name := "", Receiver := "u1",
      Data := none } rfl

/-- C6: `AddUser`, for the socket with its ID assigned.  If that ID is the host
ID the socket becomes active, the waiting map is untouched and no USER_REQUEST is
dispatched.  Otherwise the socket waits, the active map is untouched, exactly
one USER_REQUEST is dispatched, with the socket's ID and name and the host as
receiver, and it is written to the host's connection when the host is active
(and to no connection when not). -/
theorem addUser_join_transition (um : UserManager) (sw : SocketWrapper) :
    ((assignID um sw).2.ID = um.HostID →
        (AddUser um sw).1.Users.lookup (assignID um sw).2.ID = some (assignID um sw).2 ∧
        (AddUser um sw).1.WaitingUsers = um.WaitingUsers ∧
        ∀ m ∈ dispatches (AddUser um sw).2, m.Typ ≠ USER_REQUEST) ∧
      ((assignID um sw).2.ID ≠ um.HostID →
        (AddUser um sw).1.WaitingUsers.lookup (assignID um sw).2.ID =
          some (assignID um sw).2 ∧
        (AddUser um sw).1.Users = um.Users ∧
        dispatches (AddUser um sw).2 =
          [{ Typ := USER_REQUEST, Sender := (assignID um sw).2.ID,
             Name := (assignID um sw).2.Name, Receiver := um.HostID, Data := none }] ∧
        deliveries (AddUser um sw).2 =
          match um.Users.lookup um.HostID with
          | some host =>
            [(host.Conn,
              { Typ := USER_REQUEST, Sender := (assignID um sw).2.ID,
                Name := (assignID um sw).2.Name, Receiver := um.HostID, Data := none })]
          | none => []) := by
  have hH : (assignID um sw).1.HostID = um.HostID := by
    unfold assignID
    split <;> rfl
  have hU : (assignID um sw).1.Users = um.Users := by
    unfold assignID
    split <;> rfl
  have hW : (assignID um sw).1.WaitingUsers = um.WaitingUsers := by
    unfold assignID
    split <;> rfl
  unfold AddUser
  simp only []
  generalize assignID um sw = a at hH hU hW ⊢
  obtain ⟨⟨H, U, W, G⟩, sw1⟩ := a
  simp only at hH hU hW
  subst hH hU hW
  simp only []
  constructor
  · intro h
    simp only [h, if_true, joinMeeting, ne_eq, not_true_eq_false, if_false,
      AList.lookup_insert, true_and, sendMessage, sendTo, dispatches]
    refine ⟨h ▸ AList.lookup_insert _, ?_⟩
    intro m hm
    have hm2 : m.Typ = USER_REQUEST_ACCEPTED := by
      rcases List.mem_cons.mp hm with h1 | h1
      · rw [h1]
      · rw [h, AList.lookup_insert] at h1
        simp [dispatches] at h1
    rw [hm2]
    decide
  · intro h
    simp only [h, if_false, requestToJoin, AList.lookup_insert, true_and, sendMessage]
    cases AList.lookup um.HostID um.Users <;> simp [dispatches, deliveries, sendTo]

theorem addUser_join_transition_witness :
    ((assignID (NewUserManager "h1") hostSocket).2.ID = (NewUserManager "h1").HostID ∧
        (AddUser (NewUserManager "h1") hostSocket).1.Users.lookup
            (assignID (NewUserManager "h1") hostSocket).2.ID =
          some (assignID (NewUserManager "h1") hostSocket).2 ∧
        (AddUser (NewUserManager "h1") hostSocket).1.WaitingUsers =
          (NewUserManager "h1").WaitingUsers ∧
        ∀ m ∈ dispatches (AddUser (NewUserManager "h1") hostSocket).2, m.Typ ≠ USER_REQUEST) ∧
      ((assignID hostOnly guestSocket).2.ID ≠ hostOnly.HostID ∧
        (AddUser hostOnly guestSocket).1.WaitingUsers.lookup
            (assignID hostOnly guestSocket).2.ID = some (assignID hostOnly guestSocket).2 ∧
        (AddUser hostOnly guestSocket).1.Users = hostOnly.Users ∧
        dispatches (AddUser hostOnly guestSocket).2 =
          [{ Typ := USER_REQUEST, Sender := (assignID hostOnly guestSocket).2.ID,
             Name := (assignID hostOnly guestSocket).2.Name, Receiver := hostOnly.HostID,
             Data := none }] ∧
        deliveries (AddUser hostOnly guestSocket).2 =
          match hostOnly.Users.lookup hostOnly.HostID with
          | some host =>
            [(host.Conn,
              { Typ := USER_REQUEST, Sender := (assignID hostOnly guestSocket).2.ID,
                Name := (assignID hostOnly guestSocket).2.Name,
                Receiver := hostOnly.HostID, Data := none })]
          | none => []) :=
  ⟨⟨by decide, (addUser_join_transition (NewUserManager "h1") hostSocket).1 (by decide)⟩,
    ⟨by decide, (addUser_join_transition hostOnly guestSocket).2 (by decide)⟩⟩

/-- C7: in a reachable session where the receiver `u` of a USER_REQUEST_ACCEPTED
waits and is not the host, handling the message deletes `u` from the waiting map,
enters the socket that waited under `u` into the active map under `u`, sends that
socket one USER_REQUEST_ACCEPTED with sender and receiver `u`, and broadcasts one
USER_JOINED with sender `u`, written once to the connection of every entry of the
active map with a key other than `u` and to no other connection. -/
theorem accept_admits_waiting {hostID : String} {um : UserManager}
    {live : List SocketWrapper} (hr : Reachable hostID um live) (sw : SocketWrapper)
    (msg : Message) (hT : msg.Typ = USER_REQUEST_ACCEPTED)
    (hw : msg.Receiver ∈ um.WaitingUsers) (hh : msg.Receiver ≠ um.HostID) :
    ∃ user, um.WaitingUsers.lookup msg.Receiver = some user ∧ user.ID = msg.Receiver ∧
      (handleMessage um sw msg).1.WaitingUsers = um.WaitingUsers.erase msg.Receiver ∧
      (handleMessage um sw msg).1.Users = um.Users.insert msg.Receiver user ∧
      (handleMessage um sw msg).2 =
        Event.unicast
            { Typ := USER_REQUEST_ACCEPTED, Sender := msg.Receiver, Name := user.Name,
              Receiver := msg.Receiver, Data := none } ::
          Event.sent user.Conn
            { Typ := USER_REQUEST_ACCEPTED, Sender := msg.Receiver, Name := user.Name,
              Receiver := msg.Receiver, Data := none } ::
          Event.broadcast
            { Typ := USER_JOINED, Sender := msg.Receiver, Name := user.Name,
              Receiver := "", Data := none } ::
          (um.Users.entries.filter (fun e => decide (e.1 ≠ msg.Receiver))).map
            (fun e => Event.sent e.2.Conn
              { Typ := USER_JOINED, Sender := msg.Receiver, Name := user.Name,
                Receiver := "", Data := none }) := by
  obtain ⟨typ, sender, name, r, data⟩ := msg
  simp only at hT hw hh ⊢
  cases hl : um.WaitingUsers.lookup r with
  | none => exact absurd hw (AList.lookup_eq_none.mp hl)
  | some user =>
    have hk : user.ID = r := reachable_keysAgree hr _ _ hl
    subst hk
    refine ⟨user, rfl, rfl, ?_⟩
    rw [handleMessage_accepted um sw _ hT]
    simp only [hl]
    rw [joinMeeting_guest { um with WaitingUsers := um.WaitingUsers.erase user.ID } user hh]
    exact ⟨rfl, rfl, rfl⟩

theorem accept_admits_waiting_witness :
    Reachable "h1" twoActive [guestSocket, otherSocket, hostSocket] ∧
      "u1" ∈ twoActive.WaitingUsers ∧ "u1" ≠ twoActive.HostID ∧
      ∃ user, twoActive.WaitingUsers.lookup "u1" = some user ∧ user.ID = "u1" ∧
        (handleMessage twoActive hostSocket
            { Typ := USER_REQUEST_ACCEPTED, Sender := "", Name := "", Receiver := "u1",
              Data := none }).1.WaitingUsers = twoActive.WaitingUsers.erase "u1" ∧
        (handleMessage twoActive hostSocket
            { Typ := USER_REQUEST_ACCEPTED, Sender := "", Name := "", Receiver := "u1",
              Data := none }).1.Users = twoActive.Users.insert "u1" user ∧
        (handleMessage twoActive hostSocket
            { Typ := USER_REQUEST_ACCEPTED, Sender := "", Name := "", Receiver := "u1",
              Data := none }).2 =
          Event.unicast
              { Typ := USER_REQUEST_ACCEPTED, Sender := "u1", Name := user.Name,
                Receiver := "u1", Data := none } ::
            Event.sent user.Conn
              { Typ := USER_REQUEST_ACCEPTED, Sender := "u1", Name := user.Name,
                Receiver := "u1", Data := none } ::
            Event.broadcast
              { Typ := USER_JOINED, Sender := "u1", Name := user.Name, Receiver := "",
                Data := none } ::
            (twoActive.Users.entries.filter (fun e => decide (e.1 ≠ "u1"))).map
              (fun e => Event.sent e.2.Conn
                { Typ := USER_JOINED, Sender := "u1", Name := user.Name, Receiver := "",
                  Data := none }) :=
  have hr : Reachable "h1" twoActive [guestSocket, otherSocket, hostSocket] :=
    Reachable.addUser guestSocket
      (Reachable.handle hostSocket
        { Typ := USER_REQUEST_ACCEPTED, Sender := "", Name := "", Receiver := "u2",
          Data := none }
        (Reachable.addUser otherSocket (Reachable.addUser hostSocket Reachable.init))
        (by decide))
  ⟨hr, by decide, by decide,
    accept_admits_waiting hr hostSocket
      { Typ := USER_REQUEST_ACCEPTED, Sender := "", Name := "", Receiver := "u1",
        Data := none } rfl (by decide) (by decide)⟩

/-! ## Mutual exclusion of the two maps -/

/-- C1 as stated fails, in two ways.  The host joins and then sends USER_REQUEST:
`h1` is active and waiting.  The guest `u1` joins, the host accepts it, and `u1`
connects a second time under the same ID: `u1` is active and waiting. -/
theorem active_and_waiting_reachable :
    (Reachable "h1" hostRequested [hostSocket] ∧ "h1" ∈ hostRequested.Users ∧
        "h1" ∈ hostRequested.WaitingUsers) ∧
      (Reachable "h1" (AddUser guestAdmitted guestSecondSocket).1
          [guestSecondSocket, guestSocket, hostSocket] ∧
        "u1" ∈ (AddUser guestAdmitted guestSecondSocket).1.Users ∧
        "u1" ∈ (AddUser guestAdmitted guestSecondSocket).1.WaitingUsers) :=
  ⟨⟨Reachable.handle hostSocket
        { Typ := USER_REQUEST, Sender := "", Name := "", Receiver := "", Data := none }
        (Reachable.addUser hostSocket Reachable.init) (by decide),
      by decide, by decide⟩,
    ⟨Reachable.addUser guestSecondSocket
        (Reachable.handle hostSocket
          { Typ := USER_REQUEST_ACCEPTED, Sender := "", Name := "", Receiver := "u1",
            Data := none }
          (Reachable.addUser guestSocket (Reachable.addUser hostSocket Reachable.init))
          (by decide)),
      by decide, by decide⟩⟩

/-- C1, amended: in every state reached from `NewUserManager` by `AddUser` calls
that add no socket other than the host under an ID that is active, by handled
messages other than a USER_REQUEST from a sender whose ID is active, and by
`removeUser` calls, no ID is a key of both the active and the waiting map. -/
theorem guarded_states_exclusive {hostID : String} {um : UserManager}
    {live : List SocketWrapper} (hr : GuardedReachable hostID um live) (id : String) :
    ¬ (id ∈ um.Users ∧ id ∈ um.WaitingUsers) :=
  (guarded_invariant hr).1 id

theorem guarded_states_exclusive_witness :
    GuardedReachable "h1" guestAdmitted [guestSocket, hostSocket] ∧
      ¬ ("u1" ∈ guestAdmitted.Users ∧ "u1" ∈ guestAdmitted.WaitingUsers) :=
  have hr : GuardedReachable "h1" guestAdmitted [guestSocket, hostSocket] :=
    GuardedReachable.handle hostSocket
      { Typ := USER_REQUEST_ACCEPTED, Sender := "", Name := "", Receiver := "u1",
        Data := none }
      (GuardedReachable.addUser guestSocket
        (GuardedReachable.addUser hostSocket GuardedReachable.init (by decide))
        (by decide))
      (by decide) (by decide)
  ⟨hr, guarded_states_exclusive hr "u1"⟩

/-! ## Removal -/

/-- C4, the code at `removeUser("h1")` on the session whose only active socket is
`h1`: the call closes the connection and deletes `h1` from the waiting map only;
`h1` is still a key of the active map afterwards. -/
theorem removeUser_keeps_active_key :
    hostOnly.Users.keys = ["h1"] ∧ "h1" ∈ (removeUser hostOnly "h1").1.Users ∧
      (removeUser hostOnly "h1").1.Users.keys = ["h1"] := by
  decide

/-- C5, the code at two calls `removeUser("u2")` in a row on the session where
`h1` and `u2` are active: the second call closes the connection of `u2` again and
broadcasts USER_LEFT again, which is written to the host a second time. -/
theorem second_removal_broadcasts_again :
    (removeUser twoActive "u2").2 =
        [Event.closed 3,
          Event.broadcast
            { Typ := USER_LEFT, Sender := "u2", Name := "", Receiver := "", Data := none },
          Event.sent 1
            { Typ := USER_LEFT, Sender := "u2", Name := "", Receiver := "", Data := none }] ∧
      (removeUser (removeUser twoActive "u2").1 "u2").2 =
        [Event.closed 3,
          Event.broadcast
            { Typ := USER_LEFT, Sender := "u2", Name := "", Receiver := "", Data := none },
          Event.sent 1
            { Typ := USER_LEFT, Sender := "u2", Name := "", Receiver := "", Data := none }] := by
  decide

/-- C3, the code at `removeUser("h1")` on the session registered under `m1` whose
only active socket is the host `h1`: nothing is deleted from the registry, the
session is still registered under `m1` with `h1` active, and the next connection
for `m1` is added to that session. -/
theorem last_removal_keeps_session :
    (hostRegistry.lookup "m1").map (fun um => um.Users.keys) = some ["h1"] ∧
      dispatches (removeUserAt hostRegistry "m1" "h1").2 =
        [{ Typ := USER_LEFT, Sender := "h1", Name := "", Receiver := "", Data := none }] ∧
      "m1" ∈ (removeUserAt hostRegistry "m1" "h1").1 ∧
      ((removeUserAt hostRegistry "m1" "h1").1.lookup "m1").map
          (fun um => (um.Users.keys, um.WaitingUsers.keys)) = some (["h1"], []) ∧
      ((connect (removeUserAt hostRegistry "m1" "h1").1 "m1" "h1" guestSocket).1.lookup
          "m1").map (fun um => (um.Users.keys, um.WaitingUsers.keys)) =
        some (["h1"], ["u1"]) := by
  decide

/-! ## Authentication -/

/-- C9, the code on a non-empty token that does not parse, does not decrypt, or
decrypts to something that is not JSON: `decryptJWE` ends in `log.Fatalf`, it
returns nothing to its caller, and `handleWebSocket` ends with the process
instead of creating a socket. -/
theorem bad_token_is_fatal (env : Env) (managers : Registry) (req : Request)
    (token hostID : String) (hm : req.meetingId ≠ "")
    (hf : env.FindMeetingByID req.meetingId = some hostID)
    (hc : req.cookie = some token) (ht : token ≠ "")
    (hbad : env.lib.parseEncrypted token = none ∨
      (∃ object, env.lib.parseEncrypted token = some object ∧
        ∀ key, env.lib.decrypt object key = none) ∨
      (∃ object, env.lib.parseEncrypted token = some object ∧
        ∀ key plaintext, env.lib.decrypt object key = some plaintext →
          env.lib.unmarshal plaintext = none)) :
    decryptJWE env.lib env.secret token = Outcome.fatal ∧
      handleWebSocket env managers req = Handled.exited := by
  have hd : decryptJWE env.lib env.secret token = Outcome.fatal := by
    unfold decryptJWE
    split_ifs with hs
    · rfl
    · cases hk : deriveEncryptionKey env.lib env.secret "" with
      | none => rfl
      | some key =>
        rcases hbad with h | ⟨object, h, hdec⟩ | ⟨object, h, hun⟩
        · simp only [h]
        · simp only [h, hdec]
        · simp only [h]
          cases hp : env.lib.decrypt object key with
          | none => rfl
          | some plaintext => simp only [hun key plaintext hp]
  refine ⟨hd, ?_⟩
  unfold handleWebSocket
  simp only [hm, if_false, hf, hc, ne_eq, ht, not_false_eq_true, if_true, hd]

theorem bad_token_is_fatal_witness :
    strictEnv.lib.parseEncrypted "garbage" = none ∧
      decryptJWE strictEnv.lib strictEnv.secret "garbage" = Outcome.fatal ∧
      handleWebSocket strictEnv ∅
          { meetingId := "m1", name := "Ugo", cookie := some "garbage" } =
        Handled.exited :=
  ⟨rfl,
    bad_token_is_fatal strictEnv ∅ { meetingId := "m1", name := "Ugo", cookie := some "garbage" }
      "garbage" "h1" (by decide) (by decide) rfl (by decide) (Or.inl rfl)⟩

end MeetBackend
